import Mathlib

/-!
Verification of the message-relay bot (`src/bot.py`) against its
natural-language specification.

The bot forwards every inbound user message to a single administrator,
records a routing map from the forwarded message id back to the origin
chat, lets the administrator answer by replying to the forwarded copy,
and auto-replies through an external text-generation service while the
administrator is away.

The shallow embedding below translates the Python handlers into pure Lean
functions. External calls (chat transport, text generation) are modelled
by oracles passed as arguments; every outbound call the handler attempts
is recorded as an element of an effect trace, in the order the code
issues it. Python's `dict` becomes a function `Nat → Option Int`
(assignment overwrites, `get` returns `none` on a missing key), and
Python truthiness of the looked-up chat id (`if not user_chat_id`) is
modelled exactly: both `None` and `0` are falsy.
-/

namespace Bot

/-- Telegram message identifier (opaque, from the transport). -/
abbrev MsgId := Nat

/-- Telegram chat identifier (may be negative for groups). -/
abbrev ChatId := Int

/-- Telegram user identifier. -/
abbrev UserId := Int

/-- The routing table `bot_data["forwarded_map"]`: a Python dict from
forwarded-message id to origin chat id, modelled as a partial map. -/
abbrev Table := MsgId → Option ChatId

/-- The empty dict `{}` installed by `setdefault` on first use. -/
def emptyTable : Table := fun _ => none

/-- Dict assignment `forwarded_map[forwarded.message_id] = chat_id`
(src/bot.py line 128): Python assignment overwrites any existing entry. -/
def recordForward (t : Table) (f : MsgId) (o : ChatId) : Table :=
  fun k => if k = f then some o else t k

/-- Dict lookup `forwarded_map.get(replied.message_id)`
(src/bot.py line 96): `None` on a missing key. -/
def resolveOrigin (t : Table) (f : MsgId) : Option ChatId := t f

/-- The mutable `context.bot_data`: the routing dict plus the
`admin_available` flag, which `get("admin_available", False)` defaults
to `false`. -/
structure BotData where
  forwarded_map : Table
  admin_available : Bool

/-- One attempted outbound call, in program order. `replyText` is
`update.message.reply_text` (goes to the chat the update came from),
`sendMessage` and `forwardMessage` are the corresponding `context.bot`
calls, and `geminiCall` records one invocation of the generation
service. -/
inductive Effect where
  | forwardMessage (toChat : ChatId) (fromChat : ChatId) (msgId : MsgId)
  | sendMessage (toChat : ChatId) (text : String)
  | replyText (text : String)
  | geminiCall (prompt : String)
  deriving DecidableEq, Repr

/-- Whether an effect is an invocation of the generation service. -/
def isGeminiCall : Effect → Bool
  | Effect.geminiCall _ => true
  | _ => false

/-- Whether an effect is a `reply_text` to the originating chat. -/
def isReplyText : Effect → Bool
  | Effect.replyText _ => true
  | _ => false

/-- The replies the handler sends back into the chat the update came
from (for an inbound user message: the messages the user receives). -/
def userReplies (effs : List Effect) : List Effect :=
  effs.filter (fun e => isReplyText e)

/-- An inbound Telegram update as the handlers read it: sender identity,
originating chat, message id, text (`update.message.text or ""`), the
sender's first name, the replied-to message id when the message is a
reply, the command name when the message is a command, and whether it
carries media (photo, sticker, document or voice). -/
structure Msg where
  sender : UserId
  chatId : ChatId
  msgId : MsgId
  firstName : String
  text : String
  replyTo : Option MsgId
  command : Option String
  hasMedia : Bool

/-- A response object of the generation client: its optional `text`
attribute and its `str()` rendering. -/
structure GenResponse where
  text : Option String
  toStr : String
  deriving DecidableEq, Repr

/-- Python `getattr(response, "text", "") or str(response)`
(src/bot.py line 60): the `text` attribute unless it is missing or the
empty string, in which case `str(response)`. -/
def responseText (r : GenResponse) : String :=
  match r.text with
  | some t => if t = "" then r.toStr else t
  | none => r.toStr

/-- Outcome of one call to the external generation endpoint: either a
response object or an exception raised inside the call. -/
inductive GenOutcome where
  | success (r : GenResponse)
  | failure
  deriving DecidableEq, Repr

/-- The auto-reply adapter `ask_gemini` (src/bot.py lines 51-64).
`configured` models the truthiness of the global `genai_client` (false
when the library or the API key is missing, or client construction
failed); `gen` is the oracle for the endpoint call. The inner `try`
converts any exception into a fixed fallback string, so the function is
total: it returns a `String` for every oracle and never raises to its
caller. -/
def ask_gemini (configured : Bool) (gen : GenOutcome) (_prompt : String) : String :=
  if configured = false then
    "Sorry, I cannot reply right now."
  else
    match gen with
    | GenOutcome.success r => responseText r
    | GenOutcome.failure => "Sorry — I can't reply right now."

/-- Python slice `s[:n]`, by code points. -/
def pySlice (s : String) (n : Nat) : String := String.mk (s.data.take n)

/-- The inline length guard of src/bot.py lines 151-152:
`if len(reply) > 4000: reply = reply[:3990] + "..."`. -/
def truncateReply (reply : String) : String :=
  if reply.length > 4000 then pySlice reply 3990 ++ "..." else reply

/-- Command handler `start_cmd` (src/bot.py lines 70-71): replies the
fixed informational string to any caller, no state change. -/
def start_cmd (_m : Msg) (st : BotData) : BotData × List Effect :=
  (st, [Effect.replyText "Admin will reply in 48 hours."])

/-- Command handler `available_cmd` (src/bot.py lines 73-77): identity
gate, then set the flag and acknowledge. -/
def available_cmd (adminId : UserId) (m : Msg) (st : BotData) : BotData × List Effect :=
  if m.sender ≠ adminId then
    (st, [])
  else
    ({ st with admin_available := true },
     [Effect.replyText "Admin is now AVAILABLE."])

/-- Command handler `away_cmd` (src/bot.py lines 79-83): identity gate,
then clear the flag and acknowledge. -/
def away_cmd (adminId : UserId) (m : Msg) (st : BotData) : BotData × List Effect :=
  if m.sender ≠ adminId then
    (st, [])
  else
    ({ st with admin_available := false },
     [Effect.replyText "Admin is now AWAY."])

/-- Handler `admin_reply_handler` (src/bot.py lines 86-111). The sender
must be the administrator and the message must be a reply; the
replied-to id is resolved through the routing dict and the result is
tested with Python truthiness (`if not user_chat_id`), so both a
missing key and a recorded chat id `0` take the error branch. On a
resolved chat, a text reply is sent verbatim and any other content is
forwarded; `sendOk` is the oracle for that transport call, whose
failure is caught and reported back to the administrator. -/
def admin_reply_handler (adminId : UserId) (sendOk : Bool) (m : Msg) (st : BotData) :
    BotData × List Effect :=
  if m.sender ≠ adminId then
    (st, [])
  else
    match m.replyTo with
    | none => (st, [])
    | some rid =>
      match resolveOrigin st.forwarded_map rid with
      | none => (st, [Effect.replyText "❌ Cannot find the user to reply to."])
      | some uid =>
        if uid = 0 then
          (st, [Effect.replyText "❌ Cannot find the user to reply to."])
        else
          let sendEff :=
            if m.text ≠ "" then Effect.sendMessage uid m.text
            else Effect.forwardMessage uid m.chatId m.msgId
          if sendOk then
            (st, [sendEff, Effect.replyText "✅ Sent to user."])
          else
            (st, [sendEff, Effect.replyText "❌ Failed to send message to user."])

/-- Primary handler `handle_message` (src/bot.py lines 114-167).
`forwardOutcome` is the oracle for the forward to the administrator:
`some fid` means the transport assigned id `fid` to the forwarded copy
(then the routing entry is recorded), `none` means the forward raised
(then the plain-text fallback notification is attempted instead).
`geminiConfigured` models the truthiness of `genai_client` and `gen`
the generation-endpoint oracle. The availability flag is read after the
forward; when it is set the handler acknowledges and returns early,
otherwise it auto-replies through `ask_gemini` (with the inline
truncation) or falls back to the fixed acknowledgment, and then sends
the closing note of line 165. -/
def handle_message (adminId : UserId) (geminiConfigured : Bool) (gen : GenOutcome)
    (forwardOutcome : Option MsgId) (m : Msg) (st : BotData) :
    BotData × List Effect :=
  let forwardAttempt := Effect.forwardMessage adminId m.chatId m.msgId
  let stAndFwd :=
    match forwardOutcome with
    | some fid =>
      ({ st with forwarded_map := recordForward st.forwarded_map fid m.chatId },
       [forwardAttempt])
    | none =>
      (st, [forwardAttempt,
            Effect.sendMessage adminId
              ("Message from " ++ m.firstName ++ " (" ++ toString m.sender ++ "):\n" ++ m.text)])
  let st1 := stAndFwd.1
  let effs1 := stAndFwd.2
  if st1.admin_available then
    (st1, effs1 ++ [Effect.replyText "Admin will reply in 48 hours."])
  else if geminiConfigured then
    let prompt := "Reply politely and briefly to this user message: " ++ m.text
    let reply := truncateReply (ask_gemini true gen prompt)
    (st1, effs1 ++ [Effect.replyText "Admin is away — I'm replying... 🤖",
                    Effect.geminiCall prompt,
                    Effect.replyText reply,
                    Effect.replyText "Admin will reply in 48 hours."])
  else
    (st1, effs1 ++ [Effect.replyText "Admin will reply in 48 hours.",
                    Effect.replyText "Admin will reply in 48 hours."])

/-- Update dispatch as `main` registers it (src/bot.py lines 177-182),
with python-telegram-bot semantics: within one handler group the first
handler whose filter matches consumes the update. Order: the three
command handlers, then `MessageHandler(filters.REPLY & filters.ALL)`
(any reply, from anyone), then the media handler (which delegates to
`handle_message`), then `MessageHandler(filters.ALL & ~filters.COMMAND)`. -/
def dispatchUpdate (adminId : UserId) (geminiConfigured : Bool) (gen : GenOutcome)
    (forwardOutcome : Option MsgId) (sendOk : Bool) (m : Msg) (st : BotData) :
    BotData × List Effect :=
  if m.command = some "start" then start_cmd m st
  else if m.command = some "available" then available_cmd adminId m st
  else if m.command = some "away" then away_cmd adminId m st
  else if m.replyTo.isSome then admin_reply_handler adminId sendOk m st
  else if m.hasMedia then handle_message adminId geminiConfigured gen forwardOutcome m st
  else if m.command.isNone then handle_message adminId geminiConfigured gen forwardOutcome m st
  else (st, [])

/-- A plain inbound user message (sender 42, chat 7, message id 3):
not a reply, not a command, no media. -/
def mPlain : Msg :=
  { sender := 42, chatId := 7, msgId := 3, firstName := "Alice",
    text := "Hello", replyTo := none, command := none, hasMedia := false }

/-- The same user's message sent as a reply to message id 2 of their
own conversation. -/
def mReplyFromUser : Msg :=
  { mPlain with replyTo := some 2 }

/-- A reply by the administrator (sender 1, in the admin chat 1) to the
forwarded message with id 9. -/
def mAdminReply : Msg :=
  { sender := 1, chatId := 1, msgId := 20, firstName := "Admin",
    text := "On my way", replyTo := some 9, command := none, hasMedia := false }

/-- State with an empty routing table and the administrator away. -/
def stAway : BotData := { forwarded_map := emptyTable, admin_available := false }

/-- State with an empty routing table and the administrator available. -/
def stAvail : BotData := { forwarded_map := emptyTable, admin_available := true }

/-- State whose routing table maps forwarded id 9 to chat id 0 (a falsy
chat id), administrator away. -/
def stZeroEntry : BotData :=
  { forwarded_map := recordForward emptyTable 9 0, admin_available := false }

/-- A generated reply of 4001 characters, one past the transport
maximum. -/
def longReply : String := String.mk (List.replicate 4001 'a')

theorem length_pySlice (s : String) (n : Nat) : (pySlice s n).length = min n s.length := by
  rw [pySlice, String.length_mk, List.length_take]
  rfl

theorem length_ellipsis : ("..." : String).length = 3 := rfl

theorem truncateReply_of_long (s : String) (h : 4000 < s.length) :
    truncateReply s = pySlice s 3990 ++ "..." ∧ (truncateReply s).length = 3993 := by
  have heq : truncateReply s = pySlice s 3990 ++ "..." := by
    rw [truncateReply, if_pos h]
  refine ⟨heq, ?_⟩
  rw [heq, String.length_append, length_pySlice, length_ellipsis]
  omega

theorem length_longReply : longReply.length = 4001 := by
  rw [longReply, String.length_mk, List.length_replicate]

/-- Claim C3 (confirmed): recording the mapping f → o and then
resolving f returns exactly o. -/
theorem c3_record_then_resolve_roundtrip (t : Table) (f : MsgId) (o : ChatId) :
    resolveOrigin (recordForward t f o) f = some o := by
  simp [resolveOrigin, recordForward]

/-- Claim C7, counterexample: after recording 1 ↦ 5, recording 1 ↦ 7 is
not a no-op — the stored origin for key 1 changes from 5 to 7. -/
theorem c7_counterexample :
    resolveOrigin (recordForward (recordForward emptyTable 1 5) 1 7) 1 = some 7 ∧
    resolveOrigin (recordForward (recordForward emptyTable 1 5) 1 7) 1 ≠
      resolveOrigin (recordForward emptyTable 1 5) 1 := by
  refine ⟨by simp [resolveOrigin, recordForward], ?_⟩
  norm_num [resolveOrigin, recordForward]

/-- Claim C7, amended: recording a mapping for a forwarded-message id
already in the table overwrites it — the new originId replaces the
stored one and every other key is unchanged (Python dict assignment). -/
theorem c7_amended_record_overwrites (t : Table) (f : MsgId) (o o' : ChatId) (k : MsgId) :
    recordForward (recordForward t f o) f o' k =
      if k = f then some o' else t k := by
  by_cases h : k = f <;> simp [recordForward, h]

/-- Claim C9 (confirmed): for every configuration, generation outcome
and prompt, `ask_gemini` is a total function returning either the text
derived from a successful response or one of the two fixed fallback
strings; no exception reaches the caller. -/
theorem c9_ask_gemini_text_or_fallback (configured : Bool) (gen : GenOutcome) (prompt : String) :
    (∃ r, gen = GenOutcome.success r ∧ configured = true ∧
       ask_gemini configured gen prompt = responseText r) ∨
    ask_gemini configured gen prompt = "Sorry, I cannot reply right now." ∨
    ask_gemini configured gen prompt = "Sorry — I can't reply right now." := by
  cases configured with
  | false => exact Or.inr (Or.inl rfl)
  | true =>
    cases gen with
    | success r => exact Or.inl ⟨r, rfl, rfl, rfl⟩
    | failure => exact Or.inr (Or.inr rfl)

/-- Claim C8 (confirmed): an `available` or `away` command whose sender
is not the administrator leaves the whole state unchanged and produces
no outbound effect at all. -/
theorem c8_non_admin_commands_noop (adminId : UserId) (m : Msg) (st : BotData)
    (h : m.sender ≠ adminId) :
    available_cmd adminId m st = (st, []) ∧ away_cmd adminId m st = (st, []) := by
  simp [available_cmd, away_cmd, h]

/-- Witness for C8: user 42 issues the commands while the administrator
id is 1; nothing happens. -/
theorem c8_witness :
    mPlain.sender ≠ 1 ∧
    available_cmd 1 mPlain stAway = (stAway, []) ∧
    away_cmd 1 mPlain stAway = (stAway, []) :=
  ⟨by decide,
   (c8_non_admin_commands_noop 1 mPlain stAway (by decide)).1,
   (c8_non_admin_commands_noop 1 mPlain stAway (by decide)).2⟩

/-- Claim C6 (confirmed): an administrator reply whose replied-to id is
not a key of the routing table yields exactly the not-found error reply
to the administrator — no message to any user, the state returned
unchanged. -/
theorem c6_unknown_reply_reports_not_found (adminId : UserId) (sendOk : Bool) (m : Msg)
    (st : BotData) (rid : MsgId)
    (h1 : m.sender = adminId) (h2 : m.replyTo = some rid)
    (h3 : resolveOrigin st.forwarded_map rid = none) :
    admin_reply_handler adminId sendOk m st =
      (st, [Effect.replyText "❌ Cannot find the user to reply to."]) := by
  simp [admin_reply_handler, h1, h2, h3]

/-- Witness for C6: the administrator (id 1) replies to forwarded id 9
while the routing table is empty. -/
theorem c6_witness :
    mAdminReply.sender = 1 ∧ mAdminReply.replyTo = some 9 ∧
    resolveOrigin stAway.forwarded_map 9 = none ∧
    admin_reply_handler 1 true mAdminReply stAway =
      (stAway, [Effect.replyText "❌ Cannot find the user to reply to."]) :=
  ⟨rfl, rfl, rfl,
   c6_unknown_reply_reports_not_found 1 true mAdminReply stAway 9 rfl rfl rfl⟩

/-- Claim C10 (confirmed): the not-found branch is decided by Python
truthiness of the looked-up value — a forwarded id recorded with the
falsy origin chat id 0 is reported as not found, and nothing is sent to
chat 0. -/
theorem c10_falsy_origin_reported_not_found (adminId : UserId) (sendOk : Bool) (m : Msg)
    (st : BotData) (rid : MsgId)
    (h1 : m.sender = adminId) (h2 : m.replyTo = some rid)
    (h3 : resolveOrigin st.forwarded_map rid = some 0) :
    admin_reply_handler adminId sendOk m st =
      (st, [Effect.replyText "❌ Cannot find the user to reply to."]) := by
  simp [admin_reply_handler, h1, h2, h3]

/-- Witness for C10: the table maps forwarded id 9 to chat id 0; the
administrator's reply to id 9 is answered with the not-found error. -/
theorem c10_witness :
    mAdminReply.sender = 1 ∧ mAdminReply.replyTo = some 9 ∧
    resolveOrigin stZeroEntry.forwarded_map 9 = some 0 ∧
    admin_reply_handler 1 true mAdminReply stZeroEntry =
      (stZeroEntry, [Effect.replyText "❌ Cannot find the user to reply to."]) :=
  ⟨rfl, rfl, by decide,
   c10_falsy_origin_reported_not_found 1 true mAdminReply stZeroEntry 9 rfl rfl (by decide)⟩

/-- Claim C4, counterexample: a generated reply of length 4001 (one
past the maximum) is truncated to length 3993, not to length exactly
4000 as claimed — the kept body is 3990 characters and the appended
ellipsis marker "..." adds only 3 more. -/
theorem c4_counterexample :
    4000 < longReply.length ∧
    (truncateReply longReply).length = 3993 ∧
    (truncateReply longReply).length ≠ 4000 := by
  have h : 4000 < longReply.length := by rw [length_longReply]; norm_num
  refine ⟨h, (truncateReply_of_long longReply h).2, ?_⟩
  rw [(truncateReply_of_long longReply h).2]
  norm_num

/-- Claim C4, amended: a generated reply longer than 4000 characters is
sent as its first 3990 characters followed by the three-character
ellipsis marker, hence with length exactly 3993; a reply of length at
most 4000 is sent unchanged. -/
theorem c4_amended_truncation (s : String) :
    (4000 < s.length →
       truncateReply s = pySlice s 3990 ++ "..." ∧ (truncateReply s).length = 3993) ∧
    (s.length ≤ 4000 → truncateReply s = s) := by
  constructor
  · intro h
    exact truncateReply_of_long s h
  · intro h
    rw [truncateReply, if_neg (by omega)]

/-- Witness for C4: the 4001-character reply is cut to 3993 characters;
the short reply "Hello" passes through unchanged. -/
theorem c4_witness :
    (4000 < longReply.length ∧
       truncateReply longReply = pySlice longReply 3990 ++ "..." ∧
       (truncateReply longReply).length = 3993) ∧
    (mPlain.text.length ≤ 4000 ∧ truncateReply mPlain.text = mPlain.text) :=
  ⟨⟨by rw [length_longReply]; norm_num,
    (c4_amended_truncation longReply).1 (by rw [length_longReply]; norm_num)⟩,
   by decide,
   (c4_amended_truncation mPlain.text).2 (by decide)⟩

/-- Claim C5 (confirmed): while the availability flag is set, the
inbound-message handler performs zero generation-service calls — its
effect trace contains no `geminiCall`, whatever the forward outcome,
the generation oracle or the configuration. -/
theorem c5_available_never_calls_gemini (adminId : UserId) (gc : Bool) (gen : GenOutcome)
    (fo : Option MsgId) (m : Msg) (st : BotData) (h : st.admin_available = true) :
    (handle_message adminId gc gen fo m st).2.filter (fun e => isGeminiCall e) = [] := by
  cases fo <;> simp [handle_message, h, isGeminiCall]

/-- Witness for C5: a concrete inbound message processed while the
administrator is available, with the generation client configured,
triggers no generation call. -/
theorem c5_witness :
    stAvail.admin_available = true ∧
    (handle_message 1 true GenOutcome.failure (some 10) mPlain stAvail).2.filter
      (fun e => isGeminiCall e) = [] :=
  ⟨rfl, c5_available_never_calls_gemini 1 true GenOutcome.failure (some 10) mPlain stAvail rfl⟩

/-- Claim C1, counterexample: while the administrator is available, the
handler returns right after the acknowledgment (src/bot.py line 144), so
the user receives exactly one reply — not the acknowledgment plus a
separate closing notice that the claim asserts for every branch. -/
theorem c1_counterexample :
    userReplies (handle_message 1 true GenOutcome.failure (some 10) mPlain stAvail).2 =
      [Effect.replyText "Admin will reply in 48 hours."] ∧
    (userReplies (handle_message 1 true GenOutcome.failure (some 10) mPlain stAvail).2).length
      ≠ 2 :=
  ⟨rfl, by decide⟩

/-- Claim C1, amended: the final fixed closing notice is sent as the
last outbound call of both away branches (after a successful auto-reply
and after the no-service acknowledgment); in the admin-available branch
the handler sends the single fixed acknowledgment and returns without a
separate closing notice. -/
theorem c1_amended_closing_notice (adminId : UserId) (gc : Bool) (gen : GenOutcome)
    (fo : Option MsgId) (m : Msg) (st : BotData) :
    (st.admin_available = false →
       (handle_message adminId gc gen fo m st).2.getLast? =
         some (Effect.replyText "Admin will reply in 48 hours.")) ∧
    (st.admin_available = true →
       userReplies (handle_message adminId gc gen fo m st).2 =
         [Effect.replyText "Admin will reply in 48 hours."]) := by
  constructor
  · intro h
    cases fo <;> cases gc <;> simp [handle_message, h]
  · intro h
    cases fo <;> simp [handle_message, h, userReplies, isReplyText]

/-- Witness for C1: a concrete away run ends with the closing notice,
and a concrete available run sends the single acknowledgment only. -/
theorem c1_witness :
    (handle_message 1 false GenOutcome.failure none mPlain stAway).2.getLast? =
      some (Effect.replyText "Admin will reply in 48 hours.") ∧
    userReplies (handle_message 1 false GenOutcome.failure none mPlain stAvail).2 =
      [Effect.replyText "Admin will reply in 48 hours."] :=
  ⟨(c1_amended_closing_notice 1 false GenOutcome.failure none mPlain stAway).1 rfl,
   (c1_amended_closing_notice 1 false GenOutcome.failure none mPlain stAvail).2 rfl⟩

/-- Claim C2 (code bug in dispatch): a message from a non-administrator
that replies to an earlier message of their own conversation matches the
reply-filtered handler registered before the general one; that handler
returns at its identity gate, so the update produces no effect at all —
it is neither forwarded to the administrator nor answered. The same
message without the reply flag is forwarded as the code's own comments
promise ("forwards everything to admin", "so admin sees everything"). -/
theorem c2_non_admin_reply_dropped :
    dispatchUpdate 1 true GenOutcome.failure (some 10) true mReplyFromUser stAway =
      (stAway, []) ∧
    Effect.forwardMessage 1 7 3 ∈
      (dispatchUpdate 1 true GenOutcome.failure (some 10) true mPlain stAway).2 :=
  ⟨rfl, by decide⟩

end Bot
